import Mathlib

/-!
Shallow embedding of the evaluation harness of UBC-MDS/dsci-522_group-28
(`src/helper_functions.py` and `src/classifier_evaluation.py`).

Numeric values are modelled as exact rationals.  A pandas one-row DataFrame is
modelled as an ordered list of (column name, cell) pairs, and the Python
dictionary returned by `sklearn.model_selection.cross_validate` (a `CVResult`)
is an ordered association list from metric key to the per-fold value sequence
(Python dictionaries preserve insertion order, and `pd.DataFrame(X)` lays the
columns out in that order).
-/

instance {ε α : Type} [DecidableEq ε] [DecidableEq α] : DecidableEq (Except ε α) := fun x y =>
  match x, y with
  | .ok a, .ok b =>
    if h : a = b then isTrue (by rw [h]) else isFalse (fun hh => h (Except.ok.inj hh))
  | .error a, .error b =>
    if h : a = b then isTrue (by rw [h]) else isFalse (fun hh => h (Except.error.inj hh))
  | .ok _, .error _ => isFalse (fun hh => Except.noConfusion hh)
  | .error _, .ok _ => isFalse (fun hh => Except.noConfusion hh)

namespace HelperFunctions

/-- A cell of the one-row summary DataFrame produced by `summarize_cv_scores`:
either a numeric column mean or the classifier-name string. -/
inductive Cell where
  | num (q : ℚ)
  | str (s : String)
deriving DecidableEq

/-- The output of `cross_validate`, as consumed by `summarize_cv_scores`:
an ordered dictionary from metric key to the per-fold numeric sequence. -/
abbrev CVResult := List (String × List ℚ)

/-- Column mean, as computed by `X_df.mean()` for a numeric pandas column. -/
def mean (xs : List ℚ) : ℚ := xs.sum / (xs.length : ℚ)

/-- `pd.Series.str.replace("test_", "validation_")` applied to one column
name: every non-overlapping occurrence of the substring `test_` is replaced
by `validation_`, scanning left to right. -/
def renameChars : List Char → List Char
  | 't' :: 'e' :: 's' :: 't' :: '_' :: rest => "validation_".toList ++ renameChars rest
  | c :: cs => c :: renameChars cs
  | [] => []

/-- String-level wrapper of `renameChars`. -/
def renameCol (s : String) : String := ⟨renameChars s.data⟩

/-- Whether the substring `test_` occurs anywhere in a column name. -/
def containsTestKey : List Char → Bool
  | [] => false
  | c :: cs => "test_".toList.isPrefixOf (c :: cs) || containsTestKey cs

/-- `summarize_cv_scores` from `src/helper_functions.py`:
builds `X_df = pd.DataFrame(X)` (columns in key order), renames the column
labels with `str.replace("test_", "validation_")`, collapses the frame to the
row of column means (`pd.DataFrame(X_df.mean()).T` with the renamed labels
reassigned positionally), adds the `classifier_name` column and reorders it
to the front. -/
def summarize_cv_scores (X : CVResult) (classifier_name : String) :
    List (String × Cell) :=
  let col_names := X.map fun kv => renameCol kv.1
  let col_means := X.map fun kv => mean kv.2
  ("classifier_name", Cell.str classifier_name) :: col_names.zip (col_means.map Cell.num)

/-- The toy 5-fold `CVResult` of the end-to-end example (accuracy and F1,
held-out and training variants). -/
def toy_result : CVResult :=
  [("test_accuracy", [1/2, 1/2, 1/2, 1/2, 1/2]),
   ("train_accuracy", [1/2, 1/2, 1/2, 1/2, 1/2]),
   ("test_f1", [0, 0, 0, 0, 0]),
   ("train_f1", [0, 0, 0, 0, 0])]

/-- `np.arange(start, stop, step)` for natural bounds: the values
`start, start + step, ...` strictly below `stop`. -/
def np_arange (start stop step : ℕ) : List ℕ :=
  List.range' start ((stop - start + step - 1) / step) step

/-- The model names accepted by `get_hyperparameter_grid`'s assertion. -/
def valid_model_names : List String :=
  ["decision_tree", "knn", "svc", "logistic_regression", "random_forest"]

/-- `get_hyperparameter_grid` from `src/helper_functions.py`: asserts the
model name is one of the five accepted names (an assertion failure is the
`Except.error` case, carrying the assertion message), returns the random
forest grid for `random_forest` and `None` for the other accepted names. -/
def get_hyperparameter_grid (model_name : String) :
    Except String (Option (List (String × List ℕ))) :=
  if model_name ∈ valid_model_names then
    .ok (if model_name = "random_forest" then
      some [("randomforestclassifier__n_estimators", np_arange 500 1001 100),
            ("randomforestclassifier__min_samples_split", np_arange 4 11 1)]
    else none)
  else
    .error "Invalid model name..."

/-- `get_feature_lists` from `src/helper_functions.py`: the static tuple
(numeric general, numeric special, categorical general, categorical special,
drop, binary) of feature-name lists, transcribed verbatim. -/
def get_feature_lists :
    List String × List String × List String × List String × List String × List String :=
  (["lead_time",
    "stays_in_weekend_nights",
    "stays_in_week_nights",
    "adults",
    "previous_cancellations",
    "previous_bookings_not_canceled",
    "booking_changes",
    "days_in_waiting_list",
    "adr",
    "required_car_parking_spaces",
    "total_of_special_requests",
    "arrival_date_year",
    "arrival_date_week_number",
    "arrival_date_day_of_month"],
   ["children",
    "babies"],
   ["hotel",
    "arrival_date_month",
    "meal",
    "market_segment",
    "distribution_channel",
    "reserved_room_type",
    "deposit_type",
    "customer_type"],
   ["country"],
   ["company",
    "reservation_status",
    "reservation_status_date",
    "agent"],
   ["is_repeated_guest"])

/-- State-passing embedding of the body of `summarize_cv_scores`, used for the
frame property.  The caller's dictionary is the mutable state; every statement
of the body binds a local (`X_df`, `col_names`) or writes into the freshly
created frame, and no statement assigns through `X`, so the state is returned
untouched next to the computed row. -/
def summarize_cv_scores_run (st : CVResult) (classifier_name : String) :
    CVResult × List (String × Cell) :=
  let X_df := st
  let col_names := X_df.map fun kv => renameCol kv.1
  let X_df := X_df.map fun kv => mean kv.2
  (st, ("classifier_name", Cell.str classifier_name) :: col_names.zip (X_df.map Cell.num))

end HelperFunctions

namespace ClassifierEvaluation

open HelperFunctions

/-- Digit-string to number: the numeric value of a non-empty all-digit
character list, `none` otherwise. -/
def digitsToNat (ds : List Char) : Option Nat :=
  if ds ≠ [] ∧ ds.all Char.isDigit then
    some (ds.foldl (fun a c => a * 10 + (c.toNat - '0'.toNat)) 0)
  else
    none

/-- Modelled from the Python builtin `int(str)` applied to a docopt option
value: optional surrounding spaces, an optional sign, then one or more
digits; anything else raises `ValueError` (the `none` case).  (Python's
underscore digit grouping and non-ASCII digits are not modelled.) -/
def pyInt (s : String) : Option Int :=
  let cs := ((s.data.dropWhile (· = ' ')).reverse.dropWhile (· = ' ')).reverse
  match cs with
  | '-' :: ds => (digitsToNat ds).map (fun n => -(n : Int))
  | '+' :: ds => (digitsToNat ds).map (fun n => (n : Int))
  | ds => (digitsToNat ds).map (fun n => (n : Int))

/-- The `chosen_seed` block of `main` in `src/classifier_evaluation.py`:
`None` defaults to 1; otherwise `int(chosen_seed)`, where a `ValueError`
leads to `exit(-2)` (the `Except.error` case carries the exit code). -/
def parse_chosen_seed (chosen_seed : Option String) : Except Int Int :=
  match chosen_seed with
  | none => .ok 1
  | some s =>
    match pyInt s with
    | some v => .ok v
    | none => .error (-2)

/-- The `n_cv_folds` block of `main`: `None` defaults to 5; otherwise
`int(n_cv_folds)`, where a `ValueError` leads to `exit(-3)`. -/
def parse_n_cv_folds (n_cv_folds : Option String) : Except Int Int :=
  match n_cv_folds with
  | none => .ok 5
  | some s =>
    match pyInt s with
    | some v => .ok v
    | none => .error (-3)

/-- Outcome of the parameter-checking prelude of `main`, which runs before
the training data is read. -/
inductive ParamCheck where
  | exited (code : Int)
  | proceeded (chosen_seed n_cv_folds : Int) (verbose : Bool)
deriving DecidableEq

/-- The prelude of `main`: the verbose flag is enabled exactly when the
argument is the string `"True"`; then the seed and fold-count blocks run in
that order, each able to terminate the process. -/
def check_parameters (chosen_seed n_cv_folds verbose : Option String) : ParamCheck :=
  let v : Bool := decide (verbose = some "True")
  match parse_chosen_seed chosen_seed with
  | .error c => .exited c
  | .ok sv =>
    match parse_n_cv_folds n_cv_folds with
    | .error c => .exited c
    | .ok fv => .proceeded sv fv v

/-- The registered models of `main`, in the insertion order of the `models`
dictionary (the baseline Dummy Classifier is evaluated separately first). -/
def registered_models : List String :=
  ["Decision Tree", "k_Nearest_Neighbor", "SVC (RBF kernel)",
   "Logistic Regression", "Random Forest"]

/-- The report-building loop of `main`: the baseline row is computed first,
then each registered model's summary row is concatenated in registration
order; `cv` abstracts `cross_validate` (it yields the per-fold score
dictionary of a model on the training data). -/
def evaluation_report (cv : String → CVResult) : List (List (String × Cell)) :=
  registered_models.foldl
    (fun acc m => acc ++ [summarize_cv_scores (cv m) m])
    [summarize_cv_scores (cv "Dummy Classifier") "Dummy Classifier"]

/-- Result of a run of `main`: either an `exit(code)` from the parameter
prelude, or the report written to the report file. -/
inductive RunResult where
  | exited (code : Int)
  | report (rows : List (List (String × Cell)))
deriving DecidableEq

/-- `main` from `src/classifier_evaluation.py`: the parameter prelude runs
first and may terminate the process; only after it succeeds is the training
data read and evaluated, abstracted by the `cv` oracle (a function of the
parsed seed, the parsed fold count and the model name). -/
def classifier_evaluation_main (chosen_seed n_cv_folds verbose : Option String)
    (cv : Int → Int → String → CVResult) : RunResult :=
  match check_parameters chosen_seed n_cv_folds verbose with
  | .exited c => .exited c
  | .proceeded sv fv _ => .report (evaluation_report (cv sv fv))

end ClassifierEvaluation

namespace HelperFunctions

theorem summarize_eq_map (X : CVResult) (classifier_name : String) :
    summarize_cv_scores X classifier_name
      = ("classifier_name", Cell.str classifier_name)
          :: X.map (fun kv => (renameCol kv.1, Cell.num (mean kv.2))) := by
  simp [summarize_cv_scores, List.map_map, List.zip_map']

theorem renameChars_nil : renameChars [] = [] := rfl

theorem renameChars_test (rest : List Char) :
    renameChars ('t' :: 'e' :: 's' :: 't' :: '_' :: rest)
      = "validation_".toList ++ renameChars rest := rfl

theorem renameChars_cons (c : Char) (cs : List Char)
    (h : "test_".toList.isPrefixOf (c :: cs) = false) :
    renameChars (c :: cs) = c :: renameChars cs := by
  rw [renameChars.eq_def]
  split
  · rename_i rest heq
    rw [heq] at h
    simp [List.isPrefixOf] at h
  · rename_i c' cs' heq
    cases heq
    rfl
  · rename_i heq
    cases heq

theorem renameChars_of_not_contains (l : List Char) (h : containsTestKey l = false) :
    renameChars l = l := by
  induction l with
  | nil => rfl
  | cons c cs ih =>
    rw [containsTestKey, Bool.or_eq_false_iff] at h
    rw [renameChars_cons c cs h.1, ih h.2]

/-- Claim C1: every metric column of the row returned by
`summarize_cv_scores` (held-out, training and timing columns alike) carries
the arithmetic mean of the corresponding per-fold sequence of the input
`CVResult`: the column at position `i + 1` of the row (right after the
leading name column) is the renamed `i`-th key paired with
`sum / length` of the `i`-th sequence. -/
theorem summarize_cv_scores_mean (X : CVResult) (classifier_name : String)
    (i : ℕ) (hi : i < X.length) (hne : (X.get ⟨i, hi⟩).2 ≠ []) :
    ∃ hj : i + 1 < (summarize_cv_scores X classifier_name).length,
      (summarize_cv_scores X classifier_name).get ⟨i + 1, hj⟩
        = (renameCol (X.get ⟨i, hi⟩).1,
           Cell.num ((X.get ⟨i, hi⟩).2.sum / ((X.get ⟨i, hi⟩).2.length : ℚ))) := by
  have h := summarize_eq_map X classifier_name
  have hlen : (summarize_cv_scores X classifier_name).length = X.length + 1 := by
    rw [h]; simp
  refine ⟨by omega, ?_⟩
  simp only [List.get_eq_getElem, h, List.getElem_cons_succ, List.getElem_map, mean]

/-- Witness for C1 at a concrete one-key input. -/
theorem summarize_cv_scores_mean_witness :
    ∃ hj : 1 < (summarize_cv_scores [("test_accuracy", [(1:ℚ), 2, 3])] "m").length,
      (summarize_cv_scores [("test_accuracy", [(1:ℚ), 2, 3])] "m").get ⟨1, hj⟩
        = (renameCol "test_accuracy",
           Cell.num (([(1:ℚ), 2, 3]).sum / (([(1:ℚ), 2, 3]).length : ℚ))) :=
  summarize_cv_scores_mean [("test_accuracy", [(1:ℚ), 2, 3])] "m" 0
    (by decide) (by decide)

/-- Claim C2 fails as stated: the renaming is a substring replacement, so the
key `train_test_f1`, which does not begin with `test_`, is nevertheless
altered by `summarize_cv_scores`. -/
theorem summarize_cv_scores_rename_counterexample :
    "test_".toList.isPrefixOf "train_test_f1".toList = false
  ∧ (summarize_cv_scores [("train_test_f1", [(0:ℚ)])] "m").map Prod.fst
      = ["classifier_name", "train_validation_f1"]
  ∧ "train_validation_f1" ≠ "train_test_f1" := by
  refine ⟨by decide, ?_, by decide⟩
  rw [summarize_eq_map]
  decide

/-- Claim C2 (amended): `summarize_cv_scores` renames each key by replacing
every occurrence of the substring `test_` with `validation_` (left to right,
non-overlapping), not only a leading one: the output column labels are the
renamed keys in key order, a key in which `test_` never occurs is unaltered,
and a key beginning with `test_` whose remainder contains no further
occurrence becomes `validation_` followed by the remainder. -/
theorem summarize_cv_scores_rename :
    (∀ (X : CVResult) (classifier_name : String),
        (summarize_cv_scores X classifier_name).map Prod.fst
          = "classifier_name" :: X.map fun kv => renameCol kv.1)
  ∧ (∀ s : String, containsTestKey s.data = false → renameCol s = s)
  ∧ (∀ rest : List Char, containsTestKey rest = false →
        renameCol ⟨'t' :: 'e' :: 's' :: 't' :: '_' :: rest⟩
          = ⟨"validation_".toList ++ rest⟩) := by
  refine ⟨?_, ?_, ?_⟩
  · intro X classifier_name
    rw [summarize_eq_map]
    simp [List.map_map, Function.comp]
  · intro s h
    show String.mk (renameChars s.data) = s
    rw [renameChars_of_not_contains s.data h]
  · intro rest h
    show String.mk (renameChars _) = _
    rw [renameChars_test, renameChars_of_not_contains rest h]

/-- Witness for the amended C2 at concrete keys. -/
theorem summarize_cv_scores_rename_witness :
    renameCol "train_accuracy" = "train_accuracy"
  ∧ renameCol "test_accuracy" = "validation_accuracy" := by
  constructor
  · exact summarize_cv_scores_rename.2.1 "train_accuracy" (by decide)
  · exact summarize_cv_scores_rename.2.2 "accuracy".toList (by decide)

/-- Claim C3: on the toy 5-fold `CVResult` (held-out accuracy all 1/2,
training accuracy all 1/2, held-out and training F1 all 0),
`summarize_cv_scores` with name `toy_test` returns exactly the single row
(classifier_name `toy_test`, validation_accuracy 1/2, train_accuracy 1/2,
validation_f1 0, train_f1 0). -/
theorem summarize_cv_scores_toy :
    summarize_cv_scores toy_result "toy_test"
      = [("classifier_name", Cell.str "toy_test"),
         ("validation_accuracy", Cell.num (1/2)),
         ("train_accuracy", Cell.num (1/2)),
         ("validation_f1", Cell.num 0),
         ("train_f1", Cell.num 0)] := by
  simp only [summarize_eq_map, toy_result, List.map_cons, List.map_nil,
    List.cons.injEq, Prod.mk.injEq, Cell.num.injEq, Cell.str.injEq]
  norm_num [mean]
  decide

/-- Claim C5: the column order of the row returned by `summarize_cv_scores`
is the model-name column `classifier_name` first, followed by the remaining
columns in the relative order in which their keys appear in the input. -/
theorem summarize_cv_scores_column_order (X : CVResult) (classifier_name : String) :
    (summarize_cv_scores X classifier_name).map Prod.fst
      = "classifier_name" :: X.map fun kv => renameCol kv.1 := by
  rw [summarize_eq_map]
  simp [List.map_map, Function.comp]

/-- Claim C7: `summarize_cv_scores` does not mutate its `CVResult` argument.
In the state-passing embedding of the body, every statement binds a local or
writes into the freshly created frame, never through the caller's
dictionary, so the state (keys and per-fold sequences alike) comes back
unchanged while the computed row agrees with the functional embedding. -/
theorem summarize_cv_scores_no_mutation (st : CVResult) (classifier_name : String) :
    (summarize_cv_scores_run st classifier_name).1 = st
  ∧ (summarize_cv_scores_run st classifier_name).2
      = summarize_cv_scores st classifier_name :=
  ⟨rfl, rfl⟩

/-- Claim C8: `get_feature_lists` is a parameterless constant — a pure query
by construction of the embedding — whose six lists are pairwise disjoint and
contain no duplicated column name. -/
theorem get_feature_lists_groups :
    get_feature_lists.1.Nodup
  ∧ get_feature_lists.2.1.Nodup
  ∧ get_feature_lists.2.2.1.Nodup
  ∧ get_feature_lists.2.2.2.1.Nodup
  ∧ get_feature_lists.2.2.2.2.1.Nodup
  ∧ get_feature_lists.2.2.2.2.2.Nodup
  ∧ (∀ x ∈ get_feature_lists.1, x ∉ get_feature_lists.2.1)
  ∧ (∀ x ∈ get_feature_lists.1, x ∉ get_feature_lists.2.2.1)
  ∧ (∀ x ∈ get_feature_lists.1, x ∉ get_feature_lists.2.2.2.1)
  ∧ (∀ x ∈ get_feature_lists.1, x ∉ get_feature_lists.2.2.2.2.1)
  ∧ (∀ x ∈ get_feature_lists.1, x ∉ get_feature_lists.2.2.2.2.2)
  ∧ (∀ x ∈ get_feature_lists.2.1, x ∉ get_feature_lists.2.2.1)
  ∧ (∀ x ∈ get_feature_lists.2.1, x ∉ get_feature_lists.2.2.2.1)
  ∧ (∀ x ∈ get_feature_lists.2.1, x ∉ get_feature_lists.2.2.2.2.1)
  ∧ (∀ x ∈ get_feature_lists.2.1, x ∉ get_feature_lists.2.2.2.2.2)
  ∧ (∀ x ∈ get_feature_lists.2.2.1, x ∉ get_feature_lists.2.2.2.1)
  ∧ (∀ x ∈ get_feature_lists.2.2.1, x ∉ get_feature_lists.2.2.2.2.1)
  ∧ (∀ x ∈ get_feature_lists.2.2.1, x ∉ get_feature_lists.2.2.2.2.2)
  ∧ (∀ x ∈ get_feature_lists.2.2.2.1, x ∉ get_feature_lists.2.2.2.2.1)
  ∧ (∀ x ∈ get_feature_lists.2.2.2.1, x ∉ get_feature_lists.2.2.2.2.2)
  ∧ (∀ x ∈ get_feature_lists.2.2.2.2.1, x ∉ get_feature_lists.2.2.2.2.2) := by
  decide

/-- Claim C10: `get_hyperparameter_grid` returns the random-forest ranges
(`n_estimators` 500..1000 step 100, `min_samples_split` 4..10) exactly for
`random_forest`, `None` for the other four accepted names, and fails the
`Invalid model name...` assertion for every other string. -/
theorem get_hyperparameter_grid_spec :
    get_hyperparameter_grid "random_forest"
      = .ok (some
          [("randomforestclassifier__n_estimators", [500, 600, 700, 800, 900, 1000]),
           ("randomforestclassifier__min_samples_split", [4, 5, 6, 7, 8, 9, 10])])
  ∧ (∀ m ∈ ["decision_tree", "knn", "svc", "logistic_regression"],
        get_hyperparameter_grid m = .ok none)
  ∧ (∀ m : String, m ∉ valid_model_names →
        get_hyperparameter_grid m = .error "Invalid model name...") := by
  refine ⟨by decide, by decide, ?_⟩
  intro m hm
  simp [get_hyperparameter_grid, hm]

/-- Witness for C10 at concrete model names. -/
theorem get_hyperparameter_grid_spec_witness :
    get_hyperparameter_grid "knn" = .ok none
  ∧ get_hyperparameter_grid "bogus" = .error "Invalid model name..." :=
  ⟨get_hyperparameter_grid_spec.2.1 "knn" (by decide),
   get_hyperparameter_grid_spec.2.2 "bogus" (by decide)⟩

end HelperFunctions

namespace ClassifierEvaluation

/-- Claim C4: the report assembled by `main` has exactly one row per
evaluated model, the Dummy Classifier baseline first, then the registered
models in registration order; this holds for every cross-validation oracle
`cv`, so the order never depends on which model's computation finishes
first. -/
theorem evaluation_report_order (cv : String → HelperFunctions.CVResult) :
    (evaluation_report cv).map (fun r => r.head?)
      = ("Dummy Classifier" :: registered_models).map
          (fun m => some ("classifier_name", HelperFunctions.Cell.str m)) := by
  simp [evaluation_report, registered_models, HelperFunctions.summarize_cv_scores]

/-- Claim C6 fails as stated: when both the seed and the fold count are
unparseable, the program exits with the seed code -2, not the fold-count
code -3, because the seed check runs first. -/
theorem config_error_counterexample :
    classifier_evaluation_main (some "abc") (some "xyz") none (fun _ _ _ => [])
      = .exited (-2)
  ∧ RunResult.exited (-2) ≠ RunResult.exited (-3) := by
  exact ⟨rfl, by decide⟩

/-- Claim C6 (amended): an unparseable seed argument terminates the run with
the seed-specific code -2; when the seed argument is absent or parseable, an
unparseable fold-count argument terminates it with the distinct
fold-count-specific code -3 (with both unparseable the seed error takes
precedence); the codes differ, and in each case the result is the same for
every cross-validation oracle, i.e. the process exits before the dataset is
read or any evaluation is performed. -/
theorem config_error_exits :
    (∀ (s : String) (n_cv_folds verbose : Option String)
        (cv : Int → Int → String → HelperFunctions.CVResult),
        pyInt s = none →
        classifier_evaluation_main (some s) n_cv_folds verbose cv = .exited (-2))
  ∧ (∀ (chosen_seed : Option String) (f : String) (verbose : Option String)
        (sv : Int) (cv : Int → Int → String → HelperFunctions.CVResult),
        parse_chosen_seed chosen_seed = .ok sv → pyInt f = none →
        classifier_evaluation_main chosen_seed (some f) verbose cv = .exited (-3))
  ∧ ((-2 : Int) ≠ -3) := by
  refine ⟨?_, ?_, by decide⟩
  · intro s n_cv_folds verbose cv h
    simp [classifier_evaluation_main, check_parameters, parse_chosen_seed, h]
  · intro chosen_seed f verbose sv cv h1 h2
    simp [classifier_evaluation_main, check_parameters, parse_n_cv_folds, h1, h2]

/-- Witness for the amended C6 at concrete inputs. -/
theorem config_error_exits_witness :
    classifier_evaluation_main (some "abc") none none (fun _ _ _ => []) = .exited (-2)
  ∧ classifier_evaluation_main none (some "xyz") none (fun _ _ _ => []) = .exited (-3) :=
  ⟨config_error_exits.1 "abc" none none _ (by decide),
   config_error_exits.2.1 none "xyz" none 1 _ rfl (by decide)⟩

/-- Claim C9: the verbose flag is enabled exactly when the argument is the
string `"True"`; every other value (for instance `"true"` or `"1"`) is
silently treated as disabled, and the verbose argument never causes a
configuration error — with default seed and fold count the prelude proceeds
for every verbose value. -/
theorem check_parameters_verbose (verbose : Option String) :
    check_parameters none none verbose
      = .proceeded 1 5 (decide (verbose = some "True"))
  ∧ check_parameters none none (some "true") = .proceeded 1 5 false
  ∧ check_parameters none none (some "1") = .proceeded 1 5 false :=
  ⟨rfl, by decide, by decide⟩

end ClassifierEvaluation
